import Mathlib

/-!
Shallow embedding of the salary-calculator program (src/app.py): the wage
constants, the per-day wage calculator `calculate_daily_wage`, and the
shift-text line parsing `parse_shift_text`, together with theorems checking
the natural-language specification against these definitions.

Conventions of the embedding:
* Python strings are `List Char`; Python ints are `Int`; Python true
  division produces `ℚ` (the source arithmetic is exact on the inputs of
  interest, and the spec mandates no intermediate rounding).
* Code that can raise is modelled with `Option` (`none` is a raised error).
* The external `jpholiday` library is an injected predicate `jp : Date → Bool`
  (the spec treats holiday lookup as an external collaborator).
* The current clock, read by the source through `datetime.now()`, is passed
  explicitly as `current_year`/`current_month` arguments.
-/

/-- A calendar date, as produced by the Python `datetime.date` constructor. -/
structure Date where
  year : Int
  month : Nat
  day : Nat
deriving DecidableEq, Repr

/-- Python `calendar` leap-year rule, as used by `datetime.date`. -/
def is_leap (y : Int) : Bool := y % 4 == 0 && (y % 100 != 0 || y % 400 == 0)

/-- Number of days in a month of a given year (0 for an out-of-range month). -/
def days_in_month (y : Int) (m : Nat) : Nat :=
  match m with
  | 1 => 31
  | 2 => if is_leap y then 29 else 28
  | 3 => 31
  | 4 => 30
  | 5 => 31
  | 6 => 30
  | 7 => 31
  | 8 => 31
  | 9 => 30
  | 10 => 31
  | 11 => 30
  | 12 => 31
  | _ => 0

/-- Validity of a `datetime.date(year, month, day)` call: Python raises
`ValueError` outside `MINYEAR..MAXYEAR` (1..9999), for a month outside
1..12, or for a day outside the month. -/
def is_valid_date (y : Int) (m d : Nat) : Bool :=
  decide (1 ≤ y) && decide (y ≤ 9999) && decide (1 ≤ m) && decide (m ≤ 12) &&
    decide (1 ≤ d) && decide (d ≤ days_in_month y m)

/-- Days before January 1 of the year, proleptic Gregorian (as in the Python
`datetime` module; division is floor division, the divisors are positive). -/
def days_before_year (y : Int) : Int :=
  (y - 1) * 365 + (y - 1) / 4 - (y - 1) / 100 + (y - 1) / 400

/-- Days in the year before the first of the month. -/
def days_before_month (y : Int) (m : Nat) : Int :=
  ((List.range (m - 1)).map (fun i => (days_in_month y (i + 1) : Int))).sum

/-- Python `date.toordinal`: day 1 is January 1 of year 1. -/
def date_toordinal (d : Date) : Int :=
  days_before_year d.year + days_before_month d.year d.month + d.day

/-- Python `date.weekday`: Monday is 0, Sunday is 6. -/
def date_weekday (d : Date) : Int := (date_toordinal d + 6) % 7

/-- Embeds `is_holiday_or_weekend` from src/app.py, with the external
`jpholiday.is_holiday` injected as the predicate `jp`. -/
def is_holiday_or_weekend (jp : Date → Bool) (target_date : Date) : Bool :=
  if date_weekday target_date ≥ 5 then true
  else if jp target_date then true
  else false

/-- Python whitespace test used by `str.strip` and `int` (ASCII part). -/
def pyIsSpace (c : Char) : Bool :=
  c == ' ' || c == '\t' || c == '\n' || c == '\r' || c == '\x0b' || c == '\x0c'

/-- Python `str.strip()` with no argument: drop whitespace at both ends. -/
def pyStrip (s : List Char) : List Char :=
  ((s.dropWhile pyIsSpace).reverse.dropWhile pyIsSpace).reverse

/-- Value of a string of decimal digits. -/
def strToNat (cs : List Char) : Nat :=
  cs.foldl (fun a c => a * 10 + (c.toNat - 48)) 0

/-- Python `int(str)`: optional surrounding whitespace, optional sign, then a
nonempty run of digits; anything else raises `ValueError` (`none`). -/
def pyInt (s : List Char) : Option Int :=
  match pyStrip s with
  | '-' :: ds =>
      if !ds.isEmpty && ds.all Char.isDigit then some (-(strToNat ds : Int)) else none
  | '+' :: ds =>
      if !ds.isEmpty && ds.all Char.isDigit then some (strToNat ds : Int) else none
  | ds =>
      if !ds.isEmpty && ds.all Char.isDigit then some (strToNat ds : Int) else none

/-- Python `str.split(sep)` for a one-character separator: like Python,
splitting the empty string yields `[[]]`. -/
def splitOnChar (sep : Char) : List Char → List (List Char)
  | [] => [[]]
  | c :: cs =>
      if c == sep then [] :: splitOnChar sep cs
      else
        match splitOnChar sep cs with
        | h :: t => (c :: h) :: t
        | [] => [[c]]

/-- Embeds `parse_time` from src/app.py: split on a colon and convert the
first two fields with `int`; a missing field or a bad field raises (`none`). -/
def parse_time (time_str : List Char) : Option (Int × Int) :=
  match splitOnChar ':' time_str with
  | p0 :: p1 :: _ =>
      match pyInt p0, pyInt p1 with
      | some h, some m => some (h, m)
      | _, _ => none
  | _ => none

/-- Embeds `time_to_minutes` from src/app.py. -/
def time_to_minutes (hour minute : Int) : Int := hour * 60 + minute

/-- Embeds `minutes_to_hours` from src/app.py (exact division). -/
def minutes_to_hours (minutes : Int) : ℚ := (minutes : ℚ) / 60

/-- Embeds `calculate_overlap` from src/app.py. -/
def calculate_overlap (start1 end1 start2 end2 : Int) : Int :=
  max 0 (min end1 end2 - max start1 start2)

/-- Wage constant `BASE_WAGE` from src/app.py. -/
def BASE_WAGE : Int := 1140

/-- Wage constant `WEEKEND_WAGE` from src/app.py. -/
def WEEKEND_WAGE : Int := 1290

/-- Wage constant `WEEKDAY_AFTERNOON` from src/app.py. -/
def WEEKDAY_AFTERNOON : Int := 1190

/-- Band bound `MORNING_END` from `calculate_daily_wage`. -/
def MORNING_END : Int := time_to_minutes 13 0

/-- Band bound `AFTERNOON_END` from `calculate_daily_wage`. -/
def AFTERNOON_END : Int := time_to_minutes 17 0

/-- Wage constant `WEEKDAY_EVENING` from src/app.py. -/
def WEEKDAY_EVENING : Int := 1290

/-- One entry of the `breakdown` list built by `calculate_daily_wage`. -/
structure Segment where
  type : String
  minutes : Int
  rate : Int
  amount : ℚ
deriving DecidableEq, Repr

/-- The result dict of `calculate_daily_wage`; the Python key `end` is a Lean
keyword and is rendered `end_`. -/
structure DailyResult where
  date : Date
  start : List Char
  end_ : List Char
  total_minutes : Int
  wage : ℚ
  breakdown : List Segment
deriving DecidableEq, Repr

/-- Embeds `calculate_daily_wage` from src/app.py. The two `parse_time` calls
happen first (so a malformed time string raises, `none`); on a weekend or
holiday a single flat-rate entry is emitted and the function returns; on a
weekday the three band overlaps are computed and each positive one appends an
entry and adds its wage, in morning, afternoon, evening order. -/
def calculate_daily_wage (jp : Date → Bool) (work_date : Date)
    (start_time end_time : List Char) : Option DailyResult :=
  match parse_time start_time, parse_time end_time with
  | some (start_h, start_m), some (end_h, end_m) =>
    let start_minutes := time_to_minutes start_h start_m
    let end_minutes := time_to_minutes end_h end_m
    let total_minutes := end_minutes - start_minutes
    if is_holiday_or_weekend jp work_date then
      let wage := minutes_to_hours total_minutes * (WEEKEND_WAGE : ℚ)
      some { date := work_date, start := start_time, end_ := end_time,
             total_minutes := total_minutes, wage := wage,
             breakdown := [⟨"土日祝", total_minutes, WEEKEND_WAGE, wage⟩] }
    else
      let morning_minutes := calculate_overlap start_minutes end_minutes 0 MORNING_END
      let afternoon_minutes :=
        calculate_overlap start_minutes end_minutes MORNING_END AFTERNOON_END
      let evening_minutes :=
        calculate_overlap start_minutes end_minutes AFTERNOON_END (time_to_minutes 24 0)
      let morning_wage := minutes_to_hours morning_minutes * (BASE_WAGE : ℚ)
      let afternoon_wage := minutes_to_hours afternoon_minutes * (WEEKDAY_AFTERNOON : ℚ)
      let evening_wage := minutes_to_hours evening_minutes * (WEEKDAY_EVENING : ℚ)
      some { date := work_date, start := start_time, end_ := end_time,
             total_minutes := total_minutes,
             wage := (if morning_minutes > 0 then morning_wage else 0)
                   + (if afternoon_minutes > 0 then afternoon_wage else 0)
                   + (if evening_minutes > 0 then evening_wage else 0),
             breakdown :=
               (if morning_minutes > 0 then
                  [⟨"〜13:00", morning_minutes, BASE_WAGE, morning_wage⟩] else [])
               ++ (if afternoon_minutes > 0 then
                  [⟨"13:00〜17:00", afternoon_minutes, WEEKDAY_AFTERNOON, afternoon_wage⟩] else [])
               ++ (if evening_minutes > 0 then
                  [⟨"17:00〜", evening_minutes, WEEKDAY_EVENING, evening_wage⟩] else []) }
  | _, _ => none

/-- A holiday predicate answering no for every date (a test double for the
external calendar service). -/
def noHolidays : Date → Bool := fun _ => false

/-- A holiday predicate answering yes for every date. -/
def allHolidays : Date → Bool := fun _ => true

/-- Does `s` start with the pattern `p`? -/
def listStartsWith : List Char → List Char → Bool
  | [], _ => true
  | _ :: _, [] => false
  | p :: ps, c :: cs => p == c && listStartsWith ps cs

/-- Python substring test `pat in hay` on character lists. -/
def listContains (pat : List Char) : List Char → Bool
  | [] => listStartsWith pat []
  | c :: cs => listStartsWith pat (c :: cs) || listContains pat cs

/-- Scan for the first closing parenthesis and return what follows it; the
characters skipped over are exactly the run matched by `[^)]+`. -/
def matchParenTail : List Char → Option (List Char)
  | [] => none
  | c :: rest => if c == ')' then some rest else matchParenTail rest

/-- Matches the regex fragment `\([^)]+\)`: an opening parenthesis, then a
maximal nonempty run of characters other than a closing parenthesis, then the
closing parenthesis. Returns the remainder on success. -/
def matchParen : List Char → Option (List Char)
  | '(' :: c :: rest => if c == ')' then none else matchParenTail rest
  | _ => none

/-- Matches `(\d{1,2})\([^)]+\)` (the day group of the date pattern): a greedy
one-or-two digit group followed by the parenthesised weekday label, trying the
two-digit reading first and backtracking to one digit, exactly as the Python
regex engine does. Returns the digit group. -/
def matchDateDay : List Char → Option (List Char)
  | [] => none
  | c1 :: rest1 =>
      if c1.isDigit then
        match rest1 with
        | c2 :: rest2 =>
            if c2.isDigit && (matchParen rest2).isSome then some [c1, c2]
            else if (matchParen rest1).isSome then some [c1]
            else none
        | [] => none
      else none

/-- The one-digit-month alternative of the date pattern: after the single
digit `c1`, match `/(\d{1,2})\([^)]+\)`. -/
def matchDateOne (c1 : Char) : List Char → Option (List Char × List Char)
  | '/' :: rest2 =>
      match matchDateDay rest2 with
      | some g2 => some ([c1], g2)
      | none => none
  | _ => none

/-- Matches the date pattern `(\d{1,2})/(\d{1,2})\([^)]+\)` from
`parse_shift_text` anchored at the start of the list, with the same greedy
backtracking as the Python regex engine. Returns the month and day groups. -/
def matchDateAt : List Char → Option (List Char × List Char)
  | [] => none
  | c1 :: rest1 =>
      if c1.isDigit then
        match rest1 with
        | c2 :: rest2 =>
            if c2.isDigit then
              match rest2 with
              | '/' :: rest3 =>
                  match matchDateDay rest3 with
                  | some g2 => some ([c1, c2], g2)
                  | none => matchDateOne c1 rest1
              | _ => matchDateOne c1 rest1
            else matchDateOne c1 rest1
        | [] => none
      else none

/-- Python `re.search` for the date pattern: try every start position from
the left and return the first match. -/
def searchDate : List Char → Option (List Char × List Char)
  | [] => none
  | c :: cs =>
      match matchDateAt (c :: cs) with
      | some r => some r
      | none => searchDate cs

/-- Matches `:\d{2}` and returns the three matched characters and the rest. -/
def matchColonMM : List Char → Option (List Char × List Char)
  | ':' :: d1 :: d2 :: rest =>
      if d1.isDigit && d2.isDigit then some ([':', d1, d2], rest) else none
  | _ => none

/-- Matches one time group `\d{1,2}:\d{2}` anchored at the start, greedy on
the hour digits. Returns the matched characters and the rest. -/
def matchTimeToken : List Char → Option (List Char × List Char)
  | [] => none
  | c1 :: rest1 =>
      if c1.isDigit then
        match rest1 with
        | c2 :: rest2 =>
            if c2.isDigit then
              match matchColonMM rest2 with
              | some (t, rest) => some (c1 :: c2 :: t, rest)
              | none =>
                  match matchColonMM rest1 with
                  | some (t, rest) => some (c1 :: t, rest)
                  | none => none
            else
              match matchColonMM rest1 with
              | some (t, rest) => some (c1 :: t, rest)
              | none => none
        | [] => none
      else none

/-- Matches the time pattern `(\d{1,2}:\d{2})[～〜](\d{1,2}:\d{2})` from
`parse_shift_text` anchored at the start. Returns the two time groups. -/
def matchTimeRangeAt (cs : List Char) : Option (List Char × List Char) :=
  match matchTimeToken cs with
  | some (t1, rest) =>
      match rest with
      | sep :: rest2 =>
          if sep == '～' || sep == '〜' then
            match matchTimeToken rest2 with
            | some (t2, _) => some (t1, t2)
            | none => none
          else none
      | [] => none
  | none => none

/-- Python `re.search` for the time pattern: first match from the left. -/
def searchTimeRange : List Char → Option (List Char × List Char)
  | [] => none
  | c :: cs =>
      match matchTimeRangeAt (c :: cs) with
      | some r => some r
      | none => searchTimeRange cs

/-- Python `f-string` formatting `02d` for the nonnegative hours appearing
here: at least two decimal digits, zero-padded. -/
def pad2 (n : Nat) : List Char :=
  if n < 10 then ['0', Nat.digitChar n] else Nat.toDigits 10 n

/-- The time normalisation step of `parse_shift_text`: split the matched time
on the colon and re-render the hour with two digits (an out-of-shape string
would raise on the index access, hence `Option`). -/
def normalize_time (t : List Char) : Option (List Char) :=
  match splitOnChar ':' t with
  | p0 :: p1 :: _ =>
      match pyInt p0 with
      | some h => some (pad2 h.toNat ++ ':' :: p1)
      | none => none
  | _ => none

/-- The year-resolution step of `parse_shift_text` (lines 176-181 of
src/app.py): start from the current year, add one when the parsed month is
more than six months before the current month, subtract one when it is more
than six months after. -/
def resolve_year (current_year current_month : Int) (month : Nat) : Int :=
  if (month : Int) < current_month - 6 then current_year + 1
  else if (month : Int) > current_month + 6 then current_year - 1
  else current_year

/-- One record appended to `shifts` by `parse_shift_text`. -/
structure Shift where
  date : Date
  start : List Char
  end_ : List Char
deriving DecidableEq, Repr

/-- The body of the per-line loop of `parse_shift_text`: every `continue`
is `none`, the final `shifts.append` is `some`. The checks run in source
order: blank line, header line, no-shift placeholder, date pattern, year
resolution, date validity, time pattern, time normalisation. -/
def parse_line (current_year current_month : Int) (line : List Char) : Option Shift :=
  if (pyStrip line).isEmpty then none
  else if listContains ("日付".toList) line && listContains ("勤務時間".toList) line then none
  else if listContains ("－".toList) line || listContains ("ー".toList) line then none
  else
    match searchDate line with
    | none => none
    | some (g1, g2) =>
      let month := strToNat g1
      let day := strToNat g2
      let year := resolve_year current_year current_month month
      if is_valid_date year month day then
        match searchTimeRange line with
        | none => none
        | some (t1, t2) =>
            match normalize_time t1, normalize_time t2 with
            | some st, some et => some ⟨⟨year, month, day⟩, st, et⟩
            | _, _ => none
      else none

/-- Embeds `parse_shift_text` from src/app.py: strip the whole text, split on
newlines, and run the per-line loop accumulating the parsed shifts in order.
The current year and month, read in the source via `datetime.now()`, are
explicit arguments. -/
def parse_shift_text (text : List Char) (current_year current_month : Int) : List Shift :=
  (splitOnChar '\n' (pyStrip text)).foldl
    (fun shifts line =>
      match parse_line current_year current_month line with
      | some s => shifts ++ [s]
      | none => shifts) []

/-- Written from the words of the specification, for comparison with the
breakdown built by `calculate_daily_wage`: intersect the interval from
`s` to `e` with the three fixed bands in band order, the overlap of a band
from `bs` to `be` being `max 0 (min e be - max s bs)`, and emit a segment at
the band rate exactly when the overlap is positive. -/
def bandSegmentsSpec (s e : Int) : List Segment :=
  [(("〜13:00" : String), (0 : Int), (780 : Int), (1140 : Int)),
   ("13:00〜17:00", 780, 1020, 1190),
   ("17:00〜", 1020, 1440, 1290)].filterMap
    (fun b =>
      let d := max 0 (min e b.2.2.1 - max s b.2.1)
      if 0 < d then some ⟨b.1, d, b.2.2.2, (d : ℚ) / 60 * (b.2.2.2 : ℚ)⟩ else none)

/-- Two clock readings agree on a line when the year-resolution heuristic
resolves the month parsed from the line to the same year under both. -/
def yearsAgree (cy cm cy2 cm2 : Int) (line : List Char) : Bool :=
  match searchDate line with
  | none => true
  | some (g1, _) => resolve_year cy cm (strToNat g1) == resolve_year cy2 cm2 (strToNat g1)

/-- The per-line loop of `parse_shift_text`, accumulating with append,
collects exactly the lines on which `parse_line` succeeds, in order. -/
theorem foldl_collect (f : List Char → Option Shift) (l : List (List Char)) (acc : List Shift) :
    l.foldl (fun shifts line =>
      match f line with
      | some s => shifts ++ [s]
      | none => shifts) acc = acc ++ l.filterMap f := by
  induction l generalizing acc with
  | nil => simp
  | cons x xs ih =>
      cases hf : f x <;> simp [List.foldl_cons, List.filterMap_cons, hf, ih]

/-- The three band overlaps of a shift inside the day partition the shift. -/
theorem band_overlap_sum (s e : Int) (h0 : 0 ≤ s) (h1 : s ≤ e) (h2 : e ≤ 1440) :
    max 0 (min e 780 - max s 0) + max 0 (min e 1020 - max s 780) +
      max 0 (min e 1440 - max s 1020) = e - s := by
  simp only [Int.max_def, Int.min_def]
  split_ifs <;> omega

/-- A clamped overlap already is nonnegative, so gating it on positivity
does not change its value. -/
theorem if_pos_max (x : Int) : (if 0 < max 0 x then max 0 x else 0) = max 0 x := by
  simp only [Int.max_def]
  split_ifs <;> omega

/-- A band overlap of a degenerate shift (end not after start) is zero. -/
theorem overlap_degenerate (s e a b : Int) (h : e ≤ s) : calculate_overlap s e a b = 0 := by
  simp only [calculate_overlap, Int.max_def, Int.min_def]
  split_ifs <;> omega

/-- C1: on a day that is not a weekend or holiday, with well-formed times and
0 ≤ start < end ≤ 1440 minutes, the calculator emits exactly the segments
obtained by intersecting the shift with the three fixed bands, each with the
band rate, in morning, afternoon, evening order, skipping empty overlaps. -/
theorem c1_weekday_band_segments (jp : Date → Bool) (d : Date)
    (st et : List Char) (sh sm eh em : Int)
    (hst : parse_time st = some (sh, sm)) (het : parse_time et = some (eh, em))
    (hnd : is_holiday_or_weekend jp d = false)
    (h0 : 0 ≤ time_to_minutes sh sm)
    (h1 : time_to_minutes sh sm < time_to_minutes eh em)
    (h2 : time_to_minutes eh em ≤ 1440) :
    (calculate_daily_wage jp d st et).isSome = true ∧
    ∀ r, calculate_daily_wage jp d st et = some r →
      r.breakdown = bandSegmentsSpec (time_to_minutes sh sm) (time_to_minutes eh em) := by
  simp only [calculate_daily_wage, hst, het, hnd]
  refine ⟨rfl, ?_⟩
  intro r hr
  obtain rfl : _ = r := Option.some.inj hr
  clear hr
  simp only [bandSegmentsSpec, List.filterMap_cons, List.filterMap_nil]
  simp only [calculate_overlap, minutes_to_hours, MORNING_END, AFTERNOON_END,
    time_to_minutes, BASE_WAGE, WEEKDAY_AFTERNOON, WEEKDAY_EVENING]
  norm_num
  split_ifs <;> rfl

/-- Witness for C1 at the shift 09:00 to 18:00 on Thursday 2025-12-18. -/
theorem c1_weekday_band_segments_w :
    (DailyResult.mk ⟨2025, 12, 18⟩ ("09:00".toList) ("18:00".toList) 540 10610
      [⟨"〜13:00", 240, 1140, 4560⟩, ⟨"13:00〜17:00", 240, 1190, 4760⟩,
       ⟨"17:00〜", 60, 1290, 1290⟩]).breakdown =
      bandSegmentsSpec (time_to_minutes 9 0) (time_to_minutes 18 0) :=
  (c1_weekday_band_segments noHolidays ⟨2025, 12, 18⟩ ("09:00".toList) ("18:00".toList)
    9 0 18 0 (by decide) (by decide) (by decide) (by decide) (by decide)
    (by decide)).2 _ (by
      have hst : parse_time ['0', '9', ':', '0', '0'] = some (9, 0) := by decide
      have het : parse_time ['1', '8', ':', '0', '0'] = some (18, 0) := by decide
      have hnd : is_holiday_or_weekend noHolidays ⟨2025, 12, 18⟩ = false := by decide
      simp [calculate_daily_wage, hst, het, hnd, minutes_to_hours, time_to_minutes,
        calculate_overlap, MORNING_END, AFTERNOON_END, BASE_WAGE, WEEKDAY_AFTERNOON,
        WEEKDAY_EVENING]
      norm_num)

/-- C2: on a weekend or holiday the calculator returns exactly one segment,
labeled 土日祝, covering the whole difference of the parsed times at the
weekend rate 1290, whatever the start and end times are. -/
theorem c2_special_single_segment (jp : Date → Bool) (d : Date)
    (st et : List Char) (sh sm eh em : Int)
    (hst : parse_time st = some (sh, sm)) (het : parse_time et = some (eh, em))
    (hsd : is_holiday_or_weekend jp d = true) :
    (calculate_daily_wage jp d st et).isSome = true ∧
    ∀ r, calculate_daily_wage jp d st et = some r →
      r.total_minutes = time_to_minutes eh em - time_to_minutes sh sm ∧
      r.breakdown = [⟨"土日祝", r.total_minutes, 1290,
        minutes_to_hours r.total_minutes * 1290⟩] ∧
      r.wage = minutes_to_hours r.total_minutes * 1290 := by
  simp only [calculate_daily_wage, hst, het, hsd, WEEKEND_WAGE, if_true]
  refine ⟨rfl, ?_⟩
  intro r hr
  obtain rfl : _ = r := Option.some.inj hr
  clear hr
  norm_num

/-- Witness for C2 at the shift 13:00 to 17:30 on Saturday 2026-01-03. -/
theorem c2_special_single_segment_w :
    (DailyResult.mk ⟨2026, 1, 3⟩ ("13:00".toList) ("17:30".toList) 270 5805
      [⟨"土日祝", 270, 1290, 5805⟩]).total_minutes =
        time_to_minutes 17 30 - time_to_minutes 13 0 ∧
    (DailyResult.mk ⟨2026, 1, 3⟩ ("13:00".toList) ("17:30".toList) 270 5805
      [⟨"土日祝", 270, 1290, 5805⟩]).breakdown = [⟨"土日祝", 270, 1290,
        minutes_to_hours 270 * 1290⟩] ∧
    (DailyResult.mk ⟨2026, 1, 3⟩ ("13:00".toList) ("17:30".toList) 270 5805
      [⟨"土日祝", 270, 1290, 5805⟩]).wage = minutes_to_hours 270 * 1290 :=
  (c2_special_single_segment noHolidays ⟨2026, 1, 3⟩ ("13:00".toList) ("17:30".toList)
    13 0 17 30 (by decide) (by decide) (by decide)).2 _ (by
      have hst : parse_time ['1', '3', ':', '0', '0'] = some (13, 0) := by decide
      have het : parse_time ['1', '7', ':', '3', '0'] = some (17, 30) := by decide
      have hsd : is_holiday_or_weekend noHolidays ⟨2026, 1, 3⟩ = true := by decide
      simp [calculate_daily_wage, hst, het, hsd, minutes_to_hours, time_to_minutes,
        WEEKEND_WAGE]
      norm_num)

/-- C3: for every result the calculator returns, the wage equals the sum of
the amounts of the emitted segments, and every segment amount is its
duration in minutes divided by 60 times its hourly rate, exactly in ℚ. -/
theorem c3_wage_is_sum_of_amounts (jp : Date → Bool) (d : Date)
    (st et : List Char) (r : DailyResult)
    (h : calculate_daily_wage jp d st et = some r) :
    r.wage = (r.breakdown.map Segment.amount).sum ∧
    ∀ seg ∈ r.breakdown, seg.amount = (seg.minutes : ℚ) / 60 * (seg.rate : ℚ) := by
  rcases hst : parse_time st with _ | ⟨sh, sm⟩ <;>
    rcases het : parse_time et with _ | ⟨eh, em⟩ <;>
      simp only [calculate_daily_wage, hst, het] at h
  · exact absurd h (by simp)
  · exact absurd h (by simp)
  · exact absurd h (by simp)
  split at h
  · obtain rfl : _ = r := Option.some.inj h
    clear h
    refine ⟨by simp, ?_⟩
    intro seg hseg
    simp only [List.mem_singleton] at hseg
    subst hseg
    simp [minutes_to_hours]
  · obtain rfl : _ = r := Option.some.inj h
    clear h
    constructor
    · split_ifs <;> simp [minutes_to_hours] <;> ring
    · intro seg hseg
      simp only [List.mem_append] at hseg
      rcases hseg with (hseg | hseg) | hseg <;> rw [List.mem_ite_nil_right] at hseg <;>
        obtain ⟨-, hseg⟩ := hseg <;> simp only [List.mem_singleton] at hseg <;>
          subst hseg <;>
            simp [minutes_to_hours, BASE_WAGE, WEEKDAY_AFTERNOON, WEEKDAY_EVENING]

/-- Witness for C3 at the shift 17:00 to 20:00 on Friday 2025-12-19. -/
theorem c3_wage_is_sum_of_amounts_w :
    (DailyResult.mk ⟨2025, 12, 19⟩ ("17:00".toList) ("20:00".toList) 180 3870
      [⟨"17:00〜", 180, 1290, 3870⟩]).wage =
    ((DailyResult.mk ⟨2025, 12, 19⟩ ("17:00".toList) ("20:00".toList) 180 3870
      [⟨"17:00〜", 180, 1290, 3870⟩]).breakdown.map Segment.amount).sum :=
  (c3_wage_is_sum_of_amounts noHolidays ⟨2025, 12, 19⟩ ("17:00".toList) ("20:00".toList) _
    (by
      have hst : parse_time ['1', '7', ':', '0', '0'] = some (17, 0) := by decide
      have het : parse_time ['2', '0', ':', '0', '0'] = some (20, 0) := by decide
      have hnd : is_holiday_or_weekend noHolidays ⟨2025, 12, 19⟩ = false := by decide
      simp [calculate_daily_wage, hst, het, hnd, minutes_to_hours, time_to_minutes,
        calculate_overlap, MORNING_END, AFTERNOON_END, BASE_WAGE, WEEKDAY_AFTERNOON,
        WEEKDAY_EVENING]
      norm_num)).1

/-- C4: on a day that is not a weekend or holiday, with well-formed times and
0 ≤ start < end ≤ 1440 minutes, the emitted segment durations sum to
total_minutes = end - start, and the segment labels follow band order. -/
theorem c4_durations_partition_shift (jp : Date → Bool) (d : Date)
    (st et : List Char) (sh sm eh em : Int)
    (hst : parse_time st = some (sh, sm)) (het : parse_time et = some (eh, em))
    (hnd : is_holiday_or_weekend jp d = false)
    (h0 : 0 ≤ time_to_minutes sh sm)
    (h1 : time_to_minutes sh sm < time_to_minutes eh em)
    (h2 : time_to_minutes eh em ≤ 1440) :
    (calculate_daily_wage jp d st et).isSome = true ∧
    ∀ r, calculate_daily_wage jp d st et = some r →
      r.total_minutes = time_to_minutes eh em - time_to_minutes sh sm ∧
      (r.breakdown.map Segment.minutes).sum = r.total_minutes ∧
      List.Sublist (r.breakdown.map Segment.type) ["〜13:00", "13:00〜17:00", "17:00〜"] := by
  simp only [calculate_daily_wage, hst, het, hnd, Bool.false_eq_true, if_false]
  refine ⟨rfl, ?_⟩
  intro r hr
  obtain rfl : _ = r := Option.some.inj hr
  clear hr
  refine ⟨rfl, ?_, ?_⟩
  · simp only [List.map_append, List.sum_append]
    have hpiece : ∀ (c : Prop) [Decidable c] (seg : Segment),
        (((if c then [seg] else []).map Segment.minutes).sum) = if c then seg.minutes else 0 := by
      intro c _ seg
      split_ifs <;> simp
    rw [hpiece, hpiece, hpiece]
    simp only [calculate_overlap, gt_iff_lt, if_pos_max]
    simp only [MORNING_END, AFTERNOON_END, time_to_minutes] at h0 h1 h2 ⊢
    norm_num
    exact band_overlap_sum _ _ h0 (le_of_lt h1) h2
  · split_ifs <;> simp

/-- Witness for C4 at the shift 10:00 to 18:00 on Monday 2025-12-22. -/
theorem c4_durations_partition_shift_w :
    (DailyResult.mk ⟨2025, 12, 22⟩ ("10:00".toList) ("18:00".toList) 480 9470
      [⟨"〜13:00", 180, 1140, 3420⟩, ⟨"13:00〜17:00", 240, 1190, 4760⟩,
       ⟨"17:00〜", 60, 1290, 1290⟩]).total_minutes =
        time_to_minutes 18 0 - time_to_minutes 10 0 ∧
    ((DailyResult.mk ⟨2025, 12, 22⟩ ("10:00".toList) ("18:00".toList) 480 9470
      [⟨"〜13:00", 180, 1140, 3420⟩, ⟨"13:00〜17:00", 240, 1190, 4760⟩,
       ⟨"17:00〜", 60, 1290, 1290⟩]).breakdown.map Segment.minutes).sum =
      (DailyResult.mk ⟨2025, 12, 22⟩ ("10:00".toList) ("18:00".toList) 480 9470
      [⟨"〜13:00", 180, 1140, 3420⟩, ⟨"13:00〜17:00", 240, 1190, 4760⟩,
       ⟨"17:00〜", 60, 1290, 1290⟩]).total_minutes ∧
    List.Sublist ((DailyResult.mk ⟨2025, 12, 22⟩ ("10:00".toList) ("18:00".toList) 480 9470
      [⟨"〜13:00", 180, 1140, 3420⟩, ⟨"13:00〜17:00", 240, 1190, 4760⟩,
       ⟨"17:00〜", 60, 1290, 1290⟩]).breakdown.map Segment.type)
      ["〜13:00", "13:00〜17:00", "17:00〜"] :=
  (c4_durations_partition_shift noHolidays ⟨2025, 12, 22⟩ ("10:00".toList) ("18:00".toList)
    10 0 18 0 (by decide) (by decide) (by decide) (by decide) (by decide)
    (by decide)).2 _
    (by
      have hst : parse_time ['1', '0', ':', '0', '0'] = some (10, 0) := by decide
      have het : parse_time ['1', '8', ':', '0', '0'] = some (18, 0) := by decide
      have hnd : is_holiday_or_weekend noHolidays ⟨2025, 12, 22⟩ = false := by decide
      simp [calculate_daily_wage, hst, het, hnd, minutes_to_hours, time_to_minutes,
        calculate_overlap, MORNING_END, AFTERNOON_END, BASE_WAGE, WEEKDAY_AFTERNOON,
        WEEKDAY_EVENING]
      norm_num)

/-- C5: a shift from 09:00 to 18:00 on a day that is neither a weekend nor a
holiday yields the three segments 240 min at 1140 for 4560, 240 min at 1190
for 4760, and 60 min at 1290 for 1290, with total wage 10610 over 540
minutes. -/
theorem c5_nine_to_six_weekday (jp : Date → Bool) (d : Date)
    (hnd : is_holiday_or_weekend jp d = false) :
    calculate_daily_wage jp d ("09:00".toList) ("18:00".toList) =
      some ⟨d, "09:00".toList, "18:00".toList, 540, 10610,
        [⟨"〜13:00", 240, 1140, 4560⟩, ⟨"13:00〜17:00", 240, 1190, 4760⟩,
         ⟨"17:00〜", 60, 1290, 1290⟩]⟩ := by
  have hst : parse_time ['0', '9', ':', '0', '0'] = some (9, 0) := by decide
  have het : parse_time ['1', '8', ':', '0', '0'] = some (18, 0) := by decide
  simp [calculate_daily_wage, hst, het, hnd, minutes_to_hours, time_to_minutes,
    calculate_overlap, MORNING_END, AFTERNOON_END, BASE_WAGE, WEEKDAY_AFTERNOON,
    WEEKDAY_EVENING]
  norm_num

/-- Witness for C5 on Thursday 2025-12-18 with no injected holidays. -/
theorem c5_nine_to_six_weekday_w :
    calculate_daily_wage noHolidays ⟨2025, 12, 18⟩ ("09:00".toList) ("18:00".toList) =
      some ⟨⟨2025, 12, 18⟩, "09:00".toList, "18:00".toList, 540, 10610,
        [⟨"〜13:00", 240, 1140, 4560⟩, ⟨"13:00〜17:00", 240, 1190, 4760⟩,
         ⟨"17:00〜", 60, 1290, 1290⟩]⟩ :=
  c5_nine_to_six_weekday noHolidays ⟨2025, 12, 18⟩ (by decide)

/-- C10 (amended): with well-formed times and end not after start, the
calculator still returns a result with total_minutes = end - start ≤ 0; on a
non-special day the breakdown is empty and the wage is 0, so the segment
durations sum to total_minutes exactly when end = start and differ when
end < start; on a special day one segment with nonpositive duration and
nonpositive amount is produced. -/
theorem c10_degenerate_range (jp : Date → Bool) (d : Date)
    (st et : List Char) (sh sm eh em : Int)
    (hst : parse_time st = some (sh, sm)) (het : parse_time et = some (eh, em))
    (hle : time_to_minutes eh em ≤ time_to_minutes sh sm) :
    (calculate_daily_wage jp d st et).isSome = true ∧
    ∀ r, calculate_daily_wage jp d st et = some r →
      r.total_minutes = time_to_minutes eh em - time_to_minutes sh sm ∧
      r.total_minutes ≤ 0 ∧
      (is_holiday_or_weekend jp d = false →
        r.breakdown = [] ∧ r.wage = 0 ∧
        ((r.breakdown.map Segment.minutes).sum = r.total_minutes ↔
          time_to_minutes eh em = time_to_minutes sh sm)) ∧
      (is_holiday_or_weekend jp d = true →
        r.breakdown = [⟨"土日祝", r.total_minutes, 1290,
          minutes_to_hours r.total_minutes * 1290⟩] ∧
        minutes_to_hours r.total_minutes * 1290 ≤ 0) := by
  have hq : minutes_to_hours (time_to_minutes eh em - time_to_minutes sh sm) * 1290 ≤ 0 := by
    rw [minutes_to_hours, div_mul_eq_mul_div]
    apply div_nonpos_of_nonpos_of_nonneg _ (by norm_num)
    have ht : ((time_to_minutes eh em - time_to_minutes sh sm : Int) : ℚ) ≤ 0 := by
      exact_mod_cast (by omega : time_to_minutes eh em - time_to_minutes sh sm ≤ (0 : Int))
    nlinarith [ht]
  simp only [calculate_daily_wage, hst, het]
  cases hb : is_holiday_or_weekend jp d
  · simp only [Bool.false_eq_true, if_false]
    refine ⟨rfl, ?_⟩
    intro r hr
    obtain rfl : _ = r := Option.some.inj hr
    clear hr
    have hm := overlap_degenerate (time_to_minutes sh sm) (time_to_minutes eh em) 0 MORNING_END hle
    have ha := overlap_degenerate (time_to_minutes sh sm) (time_to_minutes eh em)
      MORNING_END AFTERNOON_END hle
    have he := overlap_degenerate (time_to_minutes sh sm) (time_to_minutes eh em)
      AFTERNOON_END (time_to_minutes 24 0) hle
    simp only [hm, ha, he]
    norm_num
    exact ⟨by omega, by constructor <;> omega⟩
  · simp only [if_true]
    refine ⟨rfl, ?_⟩
    intro r hr
    obtain rfl : _ = r := Option.some.inj hr
    clear hr
    norm_num [WEEKEND_WAGE]
    exact ⟨by omega, hq⟩

/-- Counterexample to C10 as stated: at the degenerate shift 10:00 to 10:00
on a weekday the breakdown is empty and total_minutes is 0, so the sum of
segment durations (0) does equal total_minutes, contrary to the claim. -/
theorem c10_counterexample :
    calculate_daily_wage noHolidays ⟨2025, 12, 18⟩ ("10:00".toList) ("10:00".toList) =
      some ⟨⟨2025, 12, 18⟩, "10:00".toList, "10:00".toList, 0, 0, []⟩ ∧
    (([] : List Segment).map Segment.minutes).sum = (0 : Int) := by
  constructor
  · have hst : parse_time ['1', '0', ':', '0', '0'] = some (10, 0) := by decide
    have hnd : is_holiday_or_weekend noHolidays ⟨2025, 12, 18⟩ = false := by decide
    simp [calculate_daily_wage, hst, hnd, minutes_to_hours, time_to_minutes,
      calculate_overlap, MORNING_END, AFTERNOON_END]
  · simp

/-- Witness for the amended C10 at the degenerate shift 11:00 to 10:00. -/
theorem c10_degenerate_range_w :
    (DailyResult.mk ⟨2025, 12, 18⟩ ("11:00".toList) ("10:00".toList) (-60) 0
      []).total_minutes = time_to_minutes 10 0 - time_to_minutes 11 0 :=
  ((c10_degenerate_range noHolidays ⟨2025, 12, 18⟩ ("11:00".toList) ("10:00".toList)
    11 0 10 0 (by decide) (by decide) (by decide)).2 _
    (by
      have hst : parse_time ['1', '1', ':', '0', '0'] = some (11, 0) := by decide
      have het : parse_time ['1', '0', ':', '0', '0'] = some (10, 0) := by decide
      have hnd : is_holiday_or_weekend noHolidays ⟨2025, 12, 18⟩ = false := by decide
      simp [calculate_daily_wage, hst, het, hnd, minutes_to_hours, time_to_minutes,
        calculate_overlap, MORNING_END, AFTERNOON_END])).1

/-- C6: parsing is total and per line: the parse result is exactly the
filterMap of the per-line function over the stripped and split input, and a
line with no date match, a date resolving to an invalid calendar date, or no
time-range match contributes nothing. -/
theorem c6_parse_skips_and_collects (cy cm : Int) :
    (∀ text, parse_shift_text text cy cm =
      (splitOnChar '\n' (pyStrip text)).filterMap (parse_line cy cm)) ∧
    (∀ line, searchDate line = none → parse_line cy cm line = none) ∧
    (∀ line g1 g2, searchDate line = some (g1, g2) →
      is_valid_date (resolve_year cy cm (strToNat g1)) (strToNat g1) (strToNat g2) = false →
      parse_line cy cm line = none) ∧
    (∀ line, searchTimeRange line = none → parse_line cy cm line = none) := by
  refine ⟨?_, ?_, ?_, ?_⟩
  · intro text
    rw [parse_shift_text, foldl_collect]
    simp
  · intro line h
    rw [parse_line]
    split_ifs <;> simp [h]
  · intro line g1 g2 hd hval
    rw [parse_line]
    split_ifs <;> simp [hd, hval]
  · intro line h
    rw [parse_line]
    split_ifs <;> try rfl
    cases hd : searchDate line with
    | none => rfl
    | some p =>
        obtain ⟨g1, g2⟩ := p
        simp only [hd]
        split_ifs <;> simp [h]

/-- Witness for C6: a line with no date token parses to nothing. -/
theorem c6_parse_skips_and_collects_w :
    parse_line 2025 12 ("hello world".toList) = none :=
  (c6_parse_skips_and_collects 2025 12).2.1 ("hello world".toList) (by decide)

/-- C7: a line containing both header tokens 日付 and 勤務時間, or one of the
no-shift placeholder glyphs － or ー, yields no record, whatever else the
line contains. -/
theorem c7_header_and_placeholder_skip (cy cm : Int) (line : List Char)
    (h : (listContains ("日付".toList) line = true ∧
          listContains ("勤務時間".toList) line = true) ∨
         listContains ("－".toList) line = true ∨
         listContains ("ー".toList) line = true) :
    parse_line cy cm line = none := by
  rw [parse_line]
  split_ifs with h1 h2 h3 <;> try rfl
  exfalso
  rcases h with ⟨ha, hb⟩ | hc | hc
  · exact h2 (by rw [ha, hb]; rfl)
  · exact h3 (by rw [hc]; rfl)
  · exact h3 (by rw [hc, Bool.or_true])

/-- Witness for C7: a header line that even contains a valid date and time
range still parses to nothing. -/
theorem c7_header_and_placeholder_skip_w :
    parse_line 2025 12 ("日付 勤務時間 12/18(木) 09:00～18:00".toList) = none :=
  c7_header_and_placeholder_skip 2025 12 _ (Or.inl ⟨by decide, by decide⟩)

/-- C8: whenever a line parses to a record, the year of its date is the
current year, plus one when the parsed month is more than six months before
the current month, minus one when it is more than six months after; the
month and day are the two matched date groups. -/
theorem c8_year_resolution (cy cm : Int) (line : List Char) (g1 g2 : List Char) (s : Shift)
    (hd : searchDate line = some (g1, g2))
    (hp : parse_line cy cm line = some s) :
    s.date.year = (if (strToNat g1 : Int) < cm - 6 then cy + 1
                   else if (strToNat g1 : Int) > cm + 6 then cy - 1 else cy) ∧
    s.date.month = strToNat g1 ∧ s.date.day = strToNat g2 := by
  rw [parse_line] at hp
  split_ifs at hp
  rw [hd] at hp
  simp only at hp
  split_ifs at hp
  rcases ht : searchTimeRange line with _ | ⟨t1, t2⟩ <;> rw [ht] at hp <;> simp only at hp
  · exact absurd hp (by simp)
  rcases hn1 : normalize_time t1 with _ | st <;> rw [hn1] at hp <;>
    rcases hn2 : normalize_time t2 with _ | et <;> try rw [hn2] at hp
  all_goals simp only at hp
  · exact absurd hp (by simp)
  · exact absurd hp (by simp)
  · exact absurd hp (by simp)
  obtain rfl : _ = s := Option.some.inj hp
  exact ⟨rfl, rfl, rfl⟩

/-- Witness for C8 on the line 12/18(木) with time range, current clock
December 2025. -/
theorem c8_year_resolution_w :
    (Shift.mk ⟨2025, 12, 18⟩ ("09:00".toList) ("18:00".toList)).date.year =
      (if (strToNat ("12".toList) : Int) < 12 - 6 then 2025 + 1
       else if (strToNat ("12".toList) : Int) > 12 + 6 then 2025 - 1 else 2025) ∧
    (Shift.mk ⟨2025, 12, 18⟩ ("09:00".toList) ("18:00".toList)).date.month =
      strToNat ("12".toList) ∧
    (Shift.mk ⟨2025, 12, 18⟩ ("09:00".toList) ("18:00".toList)).date.day =
      strToNat ("18".toList) :=
  c8_year_resolution 2025 12 ("12/18(木)\t09:00～18:00".toList) ("12".toList) ("18".toList)
    _ (by decide) (by decide)

/-- The per-line parse depends on the clock reading only through the
resolved year of the month matched on the line. -/
theorem parse_line_clock (cy cm cy2 cm2 : Int) (line : List Char)
    (h : yearsAgree cy cm cy2 cm2 line = true) :
    parse_line cy cm line = parse_line cy2 cm2 line := by
  rw [parse_line, parse_line]
  split_ifs <;> try rfl
  cases hd : searchDate line with
  | none => rfl
  | some p =>
      obtain ⟨g1, g2⟩ := p
      rw [yearsAgree, hd] at h
      simp only at h
      have heq : resolve_year cy cm (strToNat g1) = resolve_year cy2 cm2 (strToNat g1) :=
        eq_of_beq h
      dsimp only
      rw [heq]

/-- filterMap is determined by the values of the function on the list. -/
theorem filterMap_congr_aux (f g : List Char → Option Shift) :
    ∀ l : List (List Char), (∀ x ∈ l, f x = g x) → l.filterMap f = l.filterMap g := by
  intro l
  induction l with
  | nil => intro _; rfl
  | cons x xs ih =>
      intro h
      simp only [List.filterMap_cons, h x (by simp)]
      rw [ih (fun y hy => h y (by simp [hy]))]

/-- Counterexample to C9 as stated: the same text parses differently under
two clock readings (December versus January of 2025), because the year
resolution reads the current date; so parse is not independent of the
ambient clock. -/
theorem c9_counterexample :
    parse_shift_text ("01/05(月)\t09:00～10:00".toList) 2025 12 ≠
      parse_shift_text ("01/05(月)\t09:00～10:00".toList) 2025 1 := by decide

/-- C9 (amended): calculation reads no ambient state in its embedding, and
parsing is a deterministic function of the text together with the current
clock reading; the clock enters only through the year resolved for each
line, so two clock readings that resolve every line to the same year give
identical parses. -/
theorem c9_parse_clock_dependence (cy cm cy2 cm2 : Int) (text : List Char)
    (h : ∀ line ∈ splitOnChar '\n' (pyStrip text), yearsAgree cy cm cy2 cm2 line = true) :
    parse_shift_text text cy cm = parse_shift_text text cy2 cm2 := by
  rw [parse_shift_text, parse_shift_text, foldl_collect, foldl_collect]
  simp only [List.nil_append]
  exact filterMap_congr_aux _ _ _ (fun line hl => parse_line_clock _ _ _ _ line (h line hl))

/-- Witness for the amended C9: December and October 2025 resolve the month
12 to the same year, so the parses agree. -/
theorem c9_parse_clock_dependence_w :
    parse_shift_text ("12/18(木)\t09:00～18:00".toList) 2025 12 =
      parse_shift_text ("12/18(木)\t09:00～18:00".toList) 2025 10 :=
  c9_parse_clock_dependence 2025 12 2025 10 _ (by decide)
